import Mathlib

/-
Formal model of the core of the facs_video_annotator repository.

The video navigation engine (video_player.py) is embedded as pure
functions over an explicit `PlayerState`, with the decode backend's
behaviour supplied as environment records (`DecodeEnv`, `OpenEnv`):
each field records the outcome the backend would produce for the
corresponding read/open call made by the code.  Machine integers are
modelled as `Int`, Python floats as `Rat`.

The annotation log (annotation_manager.py) is embedded as pure string
and list functions; the file append performed by the save operation is
returned as an explicit (file, data) pair instead of being executed.
-/

/-- State of `VideoPlayer` (video_player.py, `__init__`).
`videoCapture = some b` models a cv2.VideoCapture object whose
`isOpened()` returns `b`; `none` models the Python `None`. -/
structure PlayerState where
  videoCapture : Option Bool
  videoPath : Option String
  currentFrame : Int
  totalFrames : Int
  fps : Rat
  frameWidth : Int
  frameHeight : Int
  lastValidFrame : Option Nat
  lastReadPosition : Int
deriving DecidableEq

/-- The state built by `VideoPlayer.__init__`. -/
def initPlayer : PlayerState :=
  { videoCapture := none
    videoPath := none
    currentFrame := 0
    totalFrames := 0
    fps := 0
    frameWidth := 0
    frameHeight := 0
    lastValidFrame := none
    lastReadPosition := -1 }

/-- Outcomes the decode backend produces for the reads a single
`get_frame` call can perform.  `seqRead` is the result of the plain
sequential `read()`; `directRead` the result of the `read()` after the
direct seek in `_seek_and_read`; `runRead p` the result of the read
that lands on absolute frame position `p` during the keyframe-recovery
forward run.  A frame image is abstracted as a `Nat`. -/
structure DecodeEnv where
  seqRead : Option Nat
  directRead : Option Nat
  runRead : Nat → Option Nat

/-- Which decode path `get_frame` takes (video_player.py lines 66-75). -/
inductive ReadPath where
  | seqNext
  | seekRead
deriving DecidableEq

/-- The branch condition of `get_frame`:
`if abs(current_frame - last_read_position) == 1:` and then
`if current_frame > last_read_position:` choose the plain sequential
read; every other combination calls `_seek_and_read`. -/
def get_frame_path (c l : Int) : ReadPath :=
  if (c - l).natAbs = 1 then
    if l < c then ReadPath.seqNext else ReadPath.seekRead
  else ReadPath.seekRead

/-- The `for i in range(count)` loop of `_seek_and_read` (lines 108-111):
perform `count` reads starting at absolute position `start`, breaking
as soon as one fails; afterwards the loop's `(ret, frame)` pair is
returned as an `Option`: the value of the last read performed if it
succeeded (which requires every read of the run to have succeeded),
`none` if the last performed read failed. -/
def runReads (readAt : Nat → Option Nat) : Nat → Nat → Option Nat
  | _, 0 => none
  | start, k + 1 =>
    match readAt start with
    | none => none
    | some f => if k = 0 then some f else runReads readAt (start + 1) k

/-- `VideoPlayer._seek_and_read` (lines 90-116): try the direct
seek-and-read; on failure seek back `min(current_frame, 30)` frames and
read forward to the target, via `runReads`. -/
def seek_and_read (cf : Int) (env : DecodeEnv) : Option Nat :=
  match env.directRead with
  | some f => some f
  | none =>
    let seekBack := min cf 30
    if 0 < seekBack then
      runReads env.runRead (cf - seekBack).toNat (seekBack + 1).toNat
    else none

/-- The fresh-decode part of `get_frame` (lines 66-75): sequential read
on the forward-by-one path, `_seek_and_read` otherwise. -/
def fresh_decode (st : PlayerState) (env : DecodeEnv) : Option Nat :=
  match get_frame_path st.currentFrame st.lastReadPosition with
  | ReadPath.seqNext => env.seqRead
  | ReadPath.seekRead => seek_and_read st.currentFrame env

/-- `VideoPlayer.get_frame` (lines 57-88).  Result mirrors the Python
triple `(success, frame, used_cache)`; the new state carries the cache
update performed on a successful decode. -/
def get_frame (st : PlayerState) (env : DecodeEnv) :
    (Bool × Option Nat × Bool) × PlayerState :=
  match st.videoCapture with
  | none => ((false, none, false), st)
  | some _ =>
    match fresh_decode st env with
    | none =>
      match st.lastValidFrame with
      | some c => ((true, some c, true), st)
      | none => ((false, none, false), st)
    | some f =>
      ((true, some f, false),
        { st with lastValidFrame := some f, lastReadPosition := st.currentFrame })

/-- `VideoPlayer.next_frame` (lines 118-123). -/
def next_frame (st : PlayerState) : Bool × PlayerState :=
  if st.currentFrame < st.totalFrames - 1 then
    (true, { st with currentFrame := st.currentFrame + 1 })
  else (false, st)

/-- `VideoPlayer.previous_frame` (lines 125-130). -/
def previous_frame (st : PlayerState) : Bool × PlayerState :=
  if 0 < st.currentFrame then
    (true, { st with currentFrame := st.currentFrame - 1 })
  else (false, st)

/-- `VideoPlayer.skip_frames` (lines 132-141): clamp
`current_frame + frame_count` into `[0, total_frames - 1]` via
`max(0, min(new, total-1))`, store it, return the actual move. -/
def skip_frames (st : PlayerState) (frameCount : Int) : Int × PlayerState :=
  let newFrame := max 0 (min (st.currentFrame + frameCount) (st.totalFrames - 1))
  (newFrame - st.currentFrame, { st with currentFrame := newFrame })

/-- Python `int()` applied to a rational value: truncation toward zero. -/
def truncTowardZero (q : Rat) : Int :=
  q.num.tdiv (q.den : Int)

/-- `VideoPlayer.skip_time` (lines 143-149): convert seconds to a frame
delta via `int(seconds * fps)` and delegate to `skip_frames`. -/
def skip_time (st : PlayerState) (seconds : Rat) : Int × PlayerState :=
  skip_frames st (truncTowardZero (seconds * st.fps))

/-- `VideoPlayer.is_loaded` (lines 163-165): `video_capture is not None`. -/
def is_loaded (st : PlayerState) : Bool :=
  st.videoCapture.isSome

/-- `VideoPlayer.release` (lines 167-171). -/
def release (st : PlayerState) : PlayerState :=
  { st with videoCapture := none }

/-- Outcomes and properties the open backends report for one
`load_video` call: whether the CAP_FFMPEG attempt opens, whether the
default-backend fallback opens, and the stream properties read from an
opened capture. -/
structure OpenEnv where
  ffmpegOpens : Bool
  defaultOpens : Bool
  totalFrames : Int
  fps : Rat
  frameWidth : Int
  frameHeight : Int

/-- `VideoPlayer.load_video` (lines 24-55).  The result mirrors the
Python pair `(success, error_message)` extended with a flag recording
whether `release()` was invoked on a previous capture (line 30-31);
the new state reflects that the failed second capture object is still
assigned to `video_capture` when both open attempts fail. -/
def load_video (st : PlayerState) (env : OpenEnv) (path : String) :
    (Bool × Option String × Bool) × PlayerState :=
  let releasedPrev := st.videoCapture.isSome
  let opened : Bool := if env.ffmpegOpens then true else env.defaultOpens
  if opened then
    ((true, none, releasedPrev),
      { videoCapture := some true
        videoPath := some path
        currentFrame := 0
        totalFrames := env.totalFrames
        fps := env.fps
        frameWidth := env.frameWidth
        frameHeight := env.frameHeight
        lastValidFrame := none
        lastReadPosition := -1 })
  else
    ((false, some "Failed to open video file", releasedPrev),
      { st with videoCapture := some false })

/-- Round half to even, the rounding used both by Python's
`timedelta` microsecond quantisation and by `str.format` float
rendering. -/
def rhe (q : Rat) : Int :=
  let f := ⌊q⌋
  if q - (f : Rat) < 1/2 then f
  else if 1/2 < q - (f : Rat) then f + 1
  else if f % 2 = 0 then f else f + 1

/-- `datetime.timedelta(seconds=q).total_seconds()`: the argument is
quantised to whole microseconds (round half to even). -/
def tsOf (q : Rat) : Rat :=
  ((rhe (q * 1000000) : Int) : Rat) / 1000000

/-- Python's `%` on floats for a positive right operand:
`a - b * (a // b)` with `//` the floored quotient. -/
def qmod (a b : Rat) : Rat :=
  a - b * ((⌊a / b⌋ : Int) : Rat)

/-- `int(td.total_seconds() // 3600)` (video_player.py line 158). -/
def hoursComponent (q : Rat) : Int :=
  ⌊tsOf q / 3600⌋

/-- `int((td.total_seconds() % 3600) // 60)` (line 159). -/
def minutesComponent (q : Rat) : Int :=
  ⌊qmod (tsOf q) 3600 / 60⌋

/-- `td.total_seconds() % 60` (line 160). -/
def secsComponent (q : Rat) : Rat :=
  qmod (tsOf q) 60

/-- The seconds value of `format_timestamp` in thousandths as rendered
by `f"{secs:06.3f}"`: the fractional seconds rounded to 3 decimal
places (round half to even). -/
def milliComponent (q : Rat) : Int :=
  rhe (secsComponent q * 1000)

/-- Zero-pad a natural number to (at least) two digits. -/
def pad2 (n : Nat) : String :=
  if n < 10 then "0" ++ toString n else toString n

/-- Zero-pad a natural number to (at least) three digits. -/
def pad3 (n : Nat) : String :=
  if n < 10 then "00" ++ toString n
  else if n < 100 then "0" ++ toString n
  else toString n

/-- Python `"{:02d}".format(i)`: two-digit zero padding (negative
values keep their sign and are not padded beyond width 2). -/
def intPad2 (i : Int) : String :=
  if i < 0 then toString i else pad2 i.toNat

/-- Rendering of `f"{secs:06.3f}"` given the seconds value in
(rounded) thousandths: two-digit zero-padded integer part, a dot and
three fractional digits (faithful for the nonnegative seconds values
the source produces). -/
def fmtSecs (m : Int) : String :=
  pad2 (m.toNat / 1000) ++ "." ++ pad3 (m.toNat % 1000)

/-- `VideoPlayer.format_timestamp` (lines 155-161). -/
def format_timestamp (q : Rat) : String :=
  intPad2 (hoursComponent q) ++ ":" ++ intPad2 (minutesComponent q) ++ ":"
    ++ fmtSecs (milliComponent q)

/-- `AnnotationManager.add_to_history` (annotation_manager.py lines
33-36): append only a non-empty text that is not yet present. -/
def add_to_history (hist : List String) (a : String) : List String :=
  if a ≠ "" ∧ a ∉ hist then hist ++ [a] else hist

/-- Split a character list at `/` separators (components may be
empty). -/
def splitSlash : List Char → List Char → List (List Char)
  | [], acc => [acc.reverse]
  | c :: rest, acc =>
    if c = '/' then acc.reverse :: splitSlash rest [] else splitSlash rest (c :: acc)

/-- The non-empty `/`-separated components of a POSIX path, as used by
`os.path.relpath`. -/
def pathParts (s : String) : List String :=
  ((splitSlash s.data []).filter (fun l => l ≠ [])).map (fun l => ⟨l⟩)

/-- Length of the common prefix of two component lists. -/
def commonLen : List String → List String → Nat
  | a :: as, b :: bs => if a = b then commonLen as bs + 1 else 0
  | _, _ => 0

/-- `posixpath.relpath(path, start)` for already-absolute normalised
arguments: climb out of the uncommon part of `start` with `..` and
descend into the uncommon part of `path`. -/
def relpath (path start : String) : String :=
  let pl := pathParts path
  let sl := pathParts start
  let i := commonLen sl pl
  let rel := List.replicate (sl.length - i) ".." ++ pl.drop i
  if rel = [] then "." else String.intercalate "/" rel

/-- Index of the last occurrence of `c` in the list, if any. -/
def lastIdxOf (c : Char) (cs : List Char) : Option Nat :=
  ((cs.enum.filter (fun p => p.2 = c)).map (fun p => p.1)).getLast?

/-- `os.path.basename`: everything after the last `/`. -/
def basename (s : String) : String :=
  ⟨(splitSlash s.data []).getLastD []⟩

/-- The root part of `os.path.splitext` applied to a basename: cut at
the last dot provided some earlier character of the name is not a
dot (leading dots alone never start an extension). -/
def splitextRoot (b : String) : String :=
  match lastIdxOf '.' b.data with
  | none => b
  | some i =>
    if (b.data.take i).any (fun c => c ≠ '.') then ⟨b.data.take i⟩ else b

/-- `posixpath.dirname`: the part up to the last `/`, with trailing
slashes stripped unless the head consists only of slashes. -/
def dirname (s : String) : String :=
  match lastIdxOf '/' s.data with
  | none => ""
  | some i =>
    let head := s.data.take (i + 1)
    if head.all (fun c => c = '/') then ⟨head⟩
    else ⟨(head.reverse.dropWhile (fun c => c = '/')).reverse⟩

/-- `posixpath.join(a, b)` for a single extra component. -/
def joinPath (a b : String) : String :=
  if b.data.head? = some '/' then b
  else if a = "" ∨ a.data.getLast? = some '/' then a ++ b
  else a ++ "/" ++ b

/-- The annotation file targeted by `save_annotation` (lines 58-66):
`{basename-without-extension}_annotations.txt` inside the override
directory when one is set (Python truthiness: not `None`, not `""`),
else inside the video's containing directory. -/
def annotTargetFile (annotDir : Option String) (videoPath : String) : String :=
  let adir :=
    match annotDir with
    | some d => if d = "" then dirname videoPath else d
    | none => dirname videoPath
  joinPath adir (splitextRoot (basename videoPath) ++ "_annotations.txt")

/-- The display path stored for the video (lines 68-77):
`abs_video_path.startswith(home_dir)` selects the path relative to
home, otherwise the absolute path is stored. -/
def displayPath (home av : String) : String :=
  if home.data.isPrefixOf av.data then relpath av home else av

/-- `AnnotationManager.save_annotation` (lines 50-86).  `absOf` is the
environment's `os.path.abspath`, `home` the result of
`os.path.expanduser("~")`.  The result mirrors the Python triple
`(success, file_path, error_message)`; the second component is the
append performed on the file system, as a `(file, data)` pair.  The
model's file append always succeeds (the exception branch of the
source is out of scope for the claims). -/
def save_annotation (annotDir : Option String) (home : String)
    (absOf : String → String) (videoPath startStr endStr text : String) :
    (Bool × Option String × Option String) × Option (String × String) :=
  if videoPath = "" then ((false, none, some "No video loaded"), none)
  else
    ((true, some (annotTargetFile annotDir videoPath), none),
      some (annotTargetFile annotDir videoPath,
        displayPath home (absOf videoPath) ++ "\t" ++ startStr ++ "\t"
          ++ endStr ++ "\t" ++ text ++ "\n"))

/-- The spec's side condition for storing a home-relative path,
written from the spec's words: the video's absolute path lies under
the user's home directory. -/
abbrev liesUnderHomeSpec (av home : String) : Prop :=
  av = home ∨ (home ++ "/").data.isPrefixOf av.data = true

/-- The state invariant of the spec's data model: `totalFrames` is a
non-negative integer and `currentFrame` lies in `[0, totalFrames-1]`,
or is `0` when `totalFrames = 0`. -/
abbrev FrameInv (st : PlayerState) : Prop :=
  0 ≤ st.totalFrames ∧
    (0 < st.totalFrames → 0 ≤ st.currentFrame ∧ st.currentFrame ≤ st.totalFrames - 1) ∧
    (st.totalFrames = 0 → st.currentFrame = 0)

/-- A loaded state one frame ahead of the last read position. -/
def stC1 : PlayerState :=
  { initPlayer with
      videoCapture := some true
      totalFrames := 100
      fps := 25
      currentFrame := 1
      lastReadPosition := 0 }

/-- A loaded state five frames ahead of the last read position. -/
def stC1jump : PlayerState :=
  { initPlayer with
      videoCapture := some true
      totalFrames := 100
      fps := 25
      currentFrame := 5
      lastReadPosition := 0 }

/-- A decode environment with one sequential-read outcome. -/
def envC1 : DecodeEnv :=
  { seqRead := some 5, directRead := some 6, runRead := fun _ => none }

/-- A freshly loaded state with an empty cache. -/
def stC2 : PlayerState :=
  { initPlayer with videoCapture := some true, totalFrames := 100, fps := 25 }

/-- A decode environment in which every read fails. -/
def envC2 : DecodeEnv :=
  { seqRead := none, directRead := none, runRead := fun _ => none }

/-- A decode environment whose direct seek-and-read fails and in which
only the read landing on frame 0 succeeds. -/
def envC3refute : DecodeEnv :=
  { seqRead := none, directRead := none,
    runRead := fun p => if p = 0 then some 7 else none }

/-- A decode environment whose direct seek-and-read fails and in which
every read of the recovery run succeeds. -/
def envC3run : DecodeEnv :=
  { seqRead := none, directRead := none, runRead := fun p => some (100 + p) }

/-- An open environment in which both backends fail to open the file. -/
def envC4fail : OpenEnv :=
  { ffmpegOpens := false, defaultOpens := false, totalFrames := 0, fps := 0,
    frameWidth := 0, frameHeight := 0 }

/-- A loaded state distinct from the fresh one, used to exercise the
failure path of `load_video`. -/
def stC4 : PlayerState :=
  { initPlayer with
      videoCapture := some true
      totalFrames := 50
      fps := 30
      currentFrame := 7
      lastValidFrame := some 3
      lastReadPosition := 7 }

/-- A loaded in-range state used to exercise the navigation bounds. -/
def stC5 : PlayerState :=
  { initPlayer with
      videoCapture := some true
      totalFrames := 10
      fps := 25
      currentFrame := 3 }

/-- The state of the spec's first skip example: frame 5 of 10. -/
def stC6a : PlayerState :=
  { initPlayer with
      videoCapture := some true
      totalFrames := 10
      fps := 25
      currentFrame := 5 }

/-- The state of the spec's end-to-end skip example: frame 10, 25 fps. -/
def stC6b : PlayerState :=
  { initPlayer with
      videoCapture := some true
      totalFrames := 100
      fps := 25
      currentFrame := 10 }

/-- A state whose fps is unknown (0), as after construction. -/
def stC10 : PlayerState :=
  { initPlayer with totalFrames := 10, currentFrame := 0 }

section MainTheorems

/-- Helper: `runReads` yields the read landing on the last position of
the run exactly when every read of the run succeeds, and fails
otherwise. -/
theorem runReads_eq (readAt : Nat → Option Nat) :
    ∀ k start, runReads readAt start (k + 1) =
      if ∀ i, i ≤ k → (readAt (start + i)).isSome = true
      then readAt (start + k) else none := by
  intro k
  induction k with
  | zero =>
    intro start
    unfold runReads
    rcases hr : readAt start with _ | f
    · rw [if_neg]
      intro hall
      have := hall 0 (Nat.le_refl 0)
      rw [Nat.add_zero, hr] at this
      simp at this
    · rw [if_pos]
      · simp [Nat.add_zero, hr]
      · intro i hi
        rw [Nat.le_zero] at hi
        rw [hi, Nat.add_zero, hr]
        rfl
  | succ k ih =>
    intro start
    unfold runReads
    rcases hr : readAt start with _ | f
    · rw [if_neg]
      intro hall
      have := hall 0 (Nat.zero_le _)
      rw [Nat.add_zero, hr] at this
      simp at this
    · dsimp only
      rw [if_neg (by omega : ¬ k + 1 = 0)]
      rw [ih (start + 1)]
      by_cases hall : ∀ i, i ≤ k + 1 → (readAt (start + i)).isSome = true
      · rw [if_pos, if_pos hall]
        · congr 1
          omega
        · intro i hi
          have := hall (i + 1) (by omega)
          rw [show start + 1 + i = start + (i + 1) by omega]
          exact this
      · rw [if_neg, if_neg hall]
        intro hshift
        apply hall
        intro i hi
        rcases Nat.eq_zero_or_pos i with h0 | hpos
        · rw [h0, Nat.add_zero, hr]; rfl
        · have := hshift (i - 1) (by omega)
          rw [show start + 1 + (i - 1) = start + i by omega] at this
          exact this

/-- Helper: truncation toward zero of an integer rational is that
integer. -/
theorem ttz_intCast (n : Int) : truncTowardZero ((n : Int) : Rat) = n := by
  unfold truncTowardZero
  rw [Rat.num_intCast, Rat.den_intCast]
  push_cast
  exact Int.tdiv_one n

/-- C1: the plain sequential decode-next path is taken exactly on a
forward step by one from the last read position; every other
transition goes through `_seek_and_read`. -/
theorem C1_sequential_path_iff :
    (∀ c l : Int, get_frame_path c l = ReadPath.seqNext ↔ c - l = 1) ∧
    (∀ st : PlayerState, ∀ env : DecodeEnv,
      st.currentFrame - st.lastReadPosition = 1 → fresh_decode st env = env.seqRead) ∧
    (∀ st : PlayerState, ∀ env : DecodeEnv,
      st.currentFrame - st.lastReadPosition ≠ 1 →
        fresh_decode st env = seek_and_read st.currentFrame env) := by
  have hpath : ∀ c l : Int, get_frame_path c l = ReadPath.seqNext ↔ c - l = 1 := by
    intro c l
    unfold get_frame_path
    by_cases h1 : (c - l).natAbs = 1
    · by_cases h2 : l < c
      · rw [if_pos h1, if_pos h2]
        constructor
        · intro _; omega
        · intro _; rfl
      · rw [if_pos h1, if_neg h2]
        constructor
        · intro h; exact absurd h (by simp)
        · intro h; omega
    · rw [if_neg h1]
      constructor
      · intro h; exact absurd h (by simp)
      · intro h; omega
  refine ⟨hpath, ?_, ?_⟩
  · intro st env h
    unfold fresh_decode
    rw [(hpath _ _).mpr h]
  · intro st env h
    unfold fresh_decode
    rcases hp : get_frame_path st.currentFrame st.lastReadPosition with _ | _
    · exact absurd ((hpath _ _).mp hp) h
    · rfl

/-- Witness for C1 at concrete inputs: a forward step by one reads
sequentially, a jump by five seeks. -/
theorem C1_witness :
    fresh_decode stC1 envC1 = envC1.seqRead ∧
    fresh_decode stC1jump envC1 = seek_and_read stC1jump.currentFrame envC1 :=
  ⟨C1_sequential_path_iff.2.1 stC1 envC1 (by decide),
   C1_sequential_path_iff.2.2 stC1jump envC1 (by decide)⟩

/-- C9: `add_to_history` appends only a non-empty, not-yet-present
text at the end; it is idempotent and ignores the empty string. -/
theorem C9_history_contract (hist : List String) (a : String) :
    add_to_history (add_to_history hist a) a = add_to_history hist a ∧
    add_to_history hist "" = hist ∧
    (a ≠ "" → a ∉ hist → add_to_history hist a = hist ++ [a]) ∧
    (a = "" ∨ a ∈ hist → add_to_history hist a = hist) := by
  refine ⟨?_, ?_, ?_, ?_⟩
  · by_cases hc : a ≠ "" ∧ a ∉ hist
    · have hinner : add_to_history hist a = hist ++ [a] := by
        rw [add_to_history, if_pos hc]
      rw [hinner, add_to_history, if_neg]
      intro hcc
      exact hcc.2 (List.mem_append.mpr (Or.inr (List.mem_singleton.mpr rfl)))
    · have hinner : add_to_history hist a = hist := by
        rw [add_to_history, if_neg hc]
      rw [hinner]
      exact hinner
  · rw [add_to_history, if_neg]
    intro hcc
    exact hcc.1 rfl
  · intro h1 h2
    rw [add_to_history, if_pos ⟨h1, h2⟩]
  · intro h
    rw [add_to_history, if_neg]
    intro hcc
    rcases h with h | h
    · exact hcc.1 h
    · exact hcc.2 h

/-- Witness for C9: recording "x" twice from the empty history equals
recording it once, which appends it. -/
theorem C9_witness :
    add_to_history (add_to_history [] "x") "x" = add_to_history [] "x" ∧
    add_to_history [] "x" = [] ++ ["x"] :=
  ⟨(C9_history_contract [] "x").1,
   (C9_history_contract [] "x").2.2.1 (by decide) (by decide)⟩

/-- C6: `skip_frames` clamps into `[0, totalFrames-1]` and returns the
actual move; `skip_time` delegates with the truncated frame delta; the
spec's two concrete examples hold. -/
theorem C6_skip_contract (st : PlayerState) (d : Int) (s : Rat) :
    skip_frames st d =
      (max 0 (min (st.currentFrame + d) (st.totalFrames - 1)) - st.currentFrame,
        { st with
            currentFrame := max 0 (min (st.currentFrame + d) (st.totalFrames - 1)) }) ∧
    skip_time st s = skip_frames st (truncTowardZero (s * st.fps)) ∧
    skip_frames stC6a 100 = (4, { stC6a with currentFrame := 9 }) ∧
    skip_time stC6b (-5) = (-10, { stC6b with currentFrame := 0 }) := by
  refine ⟨rfl, rfl, by decide, ?_⟩
  have h : truncTowardZero ((-5 : Rat) * stC6b.fps) = -125 := by
    show truncTowardZero ((-5 : Rat) * 25) = -125
    rw [show ((-5 : Rat) * 25) = ((-125 : Int) : Rat) by norm_num, ttz_intCast]
  show skip_frames stC6b (truncTowardZero ((-5 : Rat) * stC6b.fps)) = _
  rw [h]
  decide

/-- C10: with `fps = 0` the time-based skip computes a zero frame
delta, so it never moves an in-range `currentFrame` and returns 0,
while the frame-based skip still moves in the same state. -/
theorem C10_skip_time_fps_zero (st : PlayerState) (s : Rat)
    (hf : st.fps = 0) (hinv : FrameInv st) :
    skip_time st s = (0, st) ∧
    skip_frames stC10 3 = (3, { stC10 with currentFrame := 3 }) := by
  constructor
  · have h0 : truncTowardZero (s * st.fps) = 0 := by
      rw [hf, mul_zero]
      rfl
    obtain ⟨ht, h1, h2⟩ := hinv
    have hc : max 0 (min (st.currentFrame + 0) (st.totalFrames - 1)) =
        st.currentFrame := by
      rcases lt_or_eq_of_le ht with htp | hte
      · have := h1 htp
        omega
      · have := h2 hte.symm
        omega
    show skip_frames st (truncTowardZero (s * st.fps)) = (0, st)
    rw [h0]
    unfold skip_frames
    dsimp only
    rw [hc]
    simp only [Prod.mk.injEq]
    exact ⟨by omega, trivial⟩
  · decide

/-- Witness for C10: at a concrete fps-0 state, a 3.5-second skip is a
no-op returning 0. -/
theorem C10_witness : skip_time stC10 (7/2) = (0, stC10) :=
  (C10_skip_time_fps_zero stC10 (7/2) rfl (by decide)).1

/-- Helper: the fields of the state after `next_frame`. -/
theorem next_frame_fields (st : PlayerState) :
    (next_frame st).2.totalFrames = st.totalFrames ∧
    (next_frame st).2.currentFrame =
      (if st.currentFrame < st.totalFrames - 1 then st.currentFrame + 1
       else st.currentFrame) := by
  unfold next_frame
  split_ifs <;> exact ⟨rfl, rfl⟩

/-- Helper: the fields of the state after `previous_frame`. -/
theorem previous_frame_fields (st : PlayerState) :
    (previous_frame st).2.totalFrames = st.totalFrames ∧
    (previous_frame st).2.currentFrame =
      (if 0 < st.currentFrame then st.currentFrame - 1 else st.currentFrame) := by
  unfold previous_frame
  split_ifs <;> exact ⟨rfl, rfl⟩

/-- Helper: the fields of the state after `skip_frames`. -/
theorem skip_frames_fields (st : PlayerState) (d : Int) :
    (skip_frames st d).2.totalFrames = st.totalFrames ∧
    (skip_frames st d).2.currentFrame =
      max 0 (min (st.currentFrame + d) (st.totalFrames - 1)) :=
  ⟨rfl, rfl⟩

/-- C5: every navigation operation keeps `currentFrame` inside
`[0, totalFrames-1]` (and at 0 when `totalFrames = 0`), from any state
satisfying the invariant. -/
theorem C5_nav_clamped (st : PlayerState) (d : Int) (s : Rat) (h : FrameInv st) :
    FrameInv (next_frame st).2 ∧ FrameInv (previous_frame st).2 ∧
    FrameInv (skip_frames st d).2 ∧ FrameInv (skip_time st s).2 := by
  obtain ⟨ht, h1, h2⟩ := h
  have hcase : (0 < st.totalFrames ∧ 0 ≤ st.currentFrame ∧
      st.currentFrame ≤ st.totalFrames - 1) ∨
      (st.totalFrames = 0 ∧ st.currentFrame = 0) := by
    rcases lt_or_eq_of_le ht with htp | hte
    · exact Or.inl ⟨htp, h1 htp⟩
    · exact Or.inr ⟨hte.symm, h2 hte.symm⟩
  refine ⟨?_, ?_, ?_, ?_⟩
  · obtain ⟨hT, hC⟩ := next_frame_fields st
    unfold FrameInv
    rw [hT, hC]
    rcases hcase with hc | hc <;> split_ifs <;>
      exact ⟨ht, fun hp => by omega, fun hz => by omega⟩
  · obtain ⟨hT, hC⟩ := previous_frame_fields st
    unfold FrameInv
    rw [hT, hC]
    rcases hcase with hc | hc <;> split_ifs <;>
      exact ⟨ht, fun hp => by omega, fun hz => by omega⟩
  · obtain ⟨hT, hC⟩ := skip_frames_fields st d
    unfold FrameInv
    rw [hT, hC]
    rcases hcase with hc | hc <;>
      exact ⟨ht, fun hp => by omega, fun hz => by omega⟩
  · show FrameInv (skip_frames st (truncTowardZero (s * st.fps))).2
    obtain ⟨hT, hC⟩ := skip_frames_fields st (truncTowardZero (s * st.fps))
    unfold FrameInv
    rw [hT, hC]
    rcases hcase with hc | hc <;>
      exact ⟨ht, fun hp => by omega, fun hz => by omega⟩

/-- Witness for C5 at a concrete in-range state and a large positive
delta. -/
theorem C5_witness : FrameInv (skip_frames stC5 100).2 :=
  (C5_nav_clamped stC5 100 0 (by decide)).2.2.1

/-- C2: when the fresh decode fails, `get_frame` silently falls back
to the cached frame (success with `used_cache = true`) if one exists
and fails only with an empty cache; every successful fresh decode
overwrites the cache and sets `last_read_position` to
`current_frame`. -/
theorem C2_cache_fallback (st : PlayerState) (env : DecodeEnv)
    (h : is_loaded st = true) :
    (∀ f, fresh_decode st env = some f →
      get_frame st env =
        ((true, some f, false),
          { st with lastValidFrame := some f, lastReadPosition := st.currentFrame })) ∧
    (fresh_decode st env = none → ∀ c, st.lastValidFrame = some c →
      get_frame st env = ((true, some c, true), st)) ∧
    (fresh_decode st env = none → st.lastValidFrame = none →
      get_frame st env = ((false, none, false), st)) := by
  rcases hvc : st.videoCapture with _ | b
  · rw [is_loaded, hvc] at h
    simp at h
  · refine ⟨?_, ?_, ?_⟩
    · intro f hf
      unfold get_frame
      rw [hvc]
      dsimp only
      rw [hf]
    · intro hf c hc
      unfold get_frame
      rw [hvc]
      dsimp only
      rw [hf]
      dsimp only
      rw [hc]
    · intro hf hc
      unfold get_frame
      rw [hvc]
      dsimp only
      rw [hf]
      dsimp only
      rw [hc]

/-- Witness for C2: in a loaded state with an empty cache and an
environment where every read fails, `get_frame` reports failure; the
hypotheses of the theorem are discharged at this concrete input. -/
theorem C2_witness : get_frame stC2 envC2 = ((false, none, false), stC2) :=
  (C2_cache_fallback stC2 envC2 (by decide)).2.2 (by decide) (by decide)

/-- C4: `load_video` releases a prior capture exactly when one exists,
succeeds exactly when one of the two backends opens the file, resets
`current_frame` and the cache on success — but on failure it stores
the failed capture object, so `is_loaded` afterwards reports `true`
and the previous cache fields survive unchanged. -/
theorem C4_load_contract (st : PlayerState) (env : OpenEnv) (p : String) :
    (load_video st env p).1.2.2 = st.videoCapture.isSome ∧
    ((load_video st env p).1.1 = true ↔
      (env.ffmpegOpens = true ∨ env.defaultOpens = true)) ∧
    ((load_video st env p).1.1 = false →
      (load_video st env p).2 = { st with videoCapture := some false } ∧
      is_loaded (load_video st env p).2 = true ∧
      (load_video st env p).1.2.1 = some "Failed to open video file") ∧
    ((load_video st env p).1.1 = true →
      (load_video st env p).2.currentFrame = 0 ∧
      (load_video st env p).2.lastValidFrame = none ∧
      (load_video st env p).2.lastReadPosition = -1 ∧
      (load_video st env p).2.videoCapture = some true ∧
      (load_video st env p).2.videoPath = some p ∧
      (load_video st env p).2.totalFrames = env.totalFrames ∧
      (load_video st env p).2.fps = env.fps) := by
  rcases hf : env.ffmpegOpens <;> rcases hd : env.defaultOpens <;>
    simp [load_video, is_loaded, hf, hd]

/-- Counterexample for C4 as stated: after a failed load on a fresh
player, the claim demands that the engine behave as if no video were
loaded, but the failed capture object is kept and `is_loaded` reports
`true`. -/
theorem C4_counterexample :
    (load_video initPlayer envC4fail "missing.mp4").1.1 = false ∧
    is_loaded (load_video initPlayer envC4fail "missing.mp4").2 = true := by
  decide

/-- Witness for C4 at a concrete failing open on a previously loaded
state. -/
theorem C4_witness : is_loaded (load_video stC4 envC4fail "clip.mp4").2 = true :=
  ((C4_load_contract stC4 envC4fail "clip.mp4").2.2.1 (by decide)).2.1

/-- C3 (amended): when the direct seek-and-read fails, the recovery
run seeks back `min(current_frame, 30)` frames and reads forward to
the target; it returns the frame produced by the final read exactly
when the target is positive and every read of the run succeeds, and
fails otherwise — a partially successful run yields a failure, not
the last successfully decoded frame. -/
theorem C3_recovery_all_or_nothing (cf : Int) (env : DecodeEnv)
    (hd : env.directRead = none) :
    seek_and_read cf env =
      if 0 < cf ∧ ∀ i, i < (min cf 30).toNat + 1 →
          (env.runRead ((cf - min cf 30).toNat + i)).isSome = true
      then env.runRead cf.toNat
      else none := by
  unfold seek_and_read
  rw [hd]
  dsimp only
  by_cases hcf : 0 < cf
  · have hsb : 0 < min cf 30 := lt_min hcf (by norm_num)
    rw [if_pos hsb]
    have hk : (min cf 30 + 1).toNat = (min cf 30).toNat + 1 := by omega
    rw [hk, runReads_eq]
    have hlast : (cf - min cf 30).toNat + (min cf 30).toNat = cf.toNat := by
      omega
    rw [hlast]
    by_cases hall : ∀ i, i ≤ (min cf 30).toNat →
        (env.runRead ((cf - min cf 30).toNat + i)).isSome = true
    · rw [if_pos hall, if_pos ⟨hcf, fun i hi => hall i (by omega)⟩]
    · rw [if_neg hall, if_neg]
      intro hc
      exact hall (fun i hi => hc.2 i (by omega))
  · rw [if_neg (by omega : ¬ 0 < min cf 30)]
    rw [if_neg]
    intro hc
    exact hcf hc.1

/-- Counterexample for C3 as stated: with target frame 2 and a run in
which only the read landing on frame 0 succeeds, at least one frame of
the forward run decodes successfully, yet `_seek_and_read` returns a
failure rather than that last successfully decoded frame. -/
theorem C3_counterexample :
    (envC3refute.runRead 0).isSome = true ∧
    seek_and_read 2 envC3refute = none ∧
    seek_and_read 2 envC3refute ≠ envC3refute.runRead 0 := by
  decide

/-- Witness for C3 at a concrete fully successful recovery run. -/
theorem C3_witness : seek_and_read 2 envC3run = envC3run.runRead 2 := by
  rw [C3_recovery_all_or_nothing 2 envC3run rfl, if_pos (by decide)]
  rfl

/-- Helper: rounding half to even fixes every integer rational. -/
theorem rhe_intCast (n : Int) : rhe ((n : Int) : Rat) = n := by
  unfold rhe
  norm_num

/-- Helper: the rounded value lies between the floor and the floor
plus one. -/
theorem rhe_bounds (q : Rat) : ⌊q⌋ ≤ rhe q ∧ rhe q ≤ ⌊q⌋ + 1 := by
  unfold rhe
  dsimp only
  split_ifs <;> omega

/-- Helper: the float modulus against a positive divisor lies in
`[0, b)`. -/
theorem qmod_bounds (a b : Rat) (hb : 0 < b) : 0 ≤ qmod a b ∧ qmod a b < b := by
  unfold qmod
  have hba : b * (a / b) = a := by
    rw [mul_comm]
    exact div_mul_cancel₀ a hb.ne'
  have h1 : ((⌊a / b⌋ : Int) : Rat) ≤ a / b := Int.floor_le _
  have h2 : a / b < ((⌊a / b⌋ : Int) : Rat) + 1 := Int.lt_floor_add_one _
  constructor
  · have := mul_le_mul_of_nonneg_left h1 hb.le
    rw [hba] at this
    linarith
  · have := mul_lt_mul_of_pos_left h2 hb
    rw [hba] at this
    nlinarith

/-- C7 (amended): `format_timestamp` renders
`HH:MM:SS.mmm` with truncated, unbounded hours, truncated minutes
below 60 and a seconds value below 60 before rounding; the rendered
milliseconds value can reach exactly 60000 (i.e. print as `60.000`)
but never exceeds it, and the spec's examples hold. -/
theorem C7_format_timestamp (q : Rat) (hq : 0 ≤ q) :
    0 ≤ hoursComponent q ∧
    0 ≤ minutesComponent q ∧ minutesComponent q < 60 ∧
    0 ≤ secsComponent q ∧ secsComponent q < 60 ∧
    0 ≤ milliComponent q ∧ milliComponent q ≤ 60000 ∧
    format_timestamp q =
      intPad2 (hoursComponent q) ++ ":" ++ intPad2 (minutesComponent q) ++ ":"
        ++ fmtSecs (milliComponent q) ∧
    format_timestamp 0 = "00:00:00.000" ∧
    format_timestamp (7323/2) = "01:01:01.500" ∧
    format_timestamp 90000 = "25:00:00.000" := by
  have hts0 : 0 ≤ tsOf q := by
    unfold tsOf
    have h1 : (0 : Int) ≤ ⌊q * 1000000⌋ := by
      apply Int.floor_nonneg.mpr
      positivity
    have h2 := (rhe_bounds (q * 1000000)).1
    have : (0 : Rat) ≤ ((rhe (q * 1000000) : Int) : Rat) := by
      exact_mod_cast le_trans h1 h2
    positivity
  have hsec : 0 ≤ secsComponent q ∧ secsComponent q < 60 :=
    qmod_bounds (tsOf q) 60 (by norm_num)
  have hmin3600 := qmod_bounds (tsOf q) 3600 (by norm_num)
  refine ⟨?_, ?_, ?_, hsec.1, hsec.2, ?_, ?_, rfl, ?_, ?_, ?_⟩
  · exact Int.floor_nonneg.mpr (div_nonneg hts0 (by norm_num))
  · exact Int.floor_nonneg.mpr (div_nonneg hmin3600.1 (by norm_num))
  · unfold minutesComponent
    have hlt : qmod (tsOf q) 3600 / 60 < ((60 : Int) : Rat) := by
      push_cast
      rw [div_lt_iff₀ (by norm_num : (0 : Rat) < 60)]
      nlinarith [hmin3600.2]
    exact Int.floor_lt.mpr hlt
  · unfold milliComponent
    have h1 : (0 : Int) ≤ ⌊secsComponent q * 1000⌋ :=
      Int.floor_nonneg.mpr (mul_nonneg hsec.1 (by norm_num))
    have := (rhe_bounds (secsComponent q * 1000)).1
    omega
  · unfold milliComponent
    have h1 : ⌊secsComponent q * 1000⌋ < (60000 : Int) := by
      apply Int.floor_lt.mpr
      push_cast
      nlinarith [hsec.2]
    have := (rhe_bounds (secsComponent q * 1000)).2
    omega
  · have hts : tsOf (0 : Rat) = 0 := by
      unfold tsOf
      rw [show ((0 : Rat) * 1000000) = ((0 : Int) : Rat) by norm_num, rhe_intCast]
      norm_num
    have hh : hoursComponent 0 = 0 := by
      unfold hoursComponent
      rw [hts]
      norm_num
    have hq0 : qmod (0 : Rat) 3600 = 0 := by
      unfold qmod
      norm_num
    have hm : minutesComponent 0 = 0 := by
      unfold minutesComponent
      rw [hts, hq0]
      norm_num
    have hq60 : qmod (0 : Rat) 60 = 0 := by
      unfold qmod
      norm_num
    have hmi : milliComponent 0 = 0 := by
      unfold milliComponent secsComponent
      rw [hts, hq60]
      rw [show ((0 : Rat) * 1000) = ((0 : Int) : Rat) by norm_num, rhe_intCast]
    unfold format_timestamp
    rw [hh, hm, hmi]
    decide
  · have hts : tsOf (7323/2 : Rat) = 7323/2 := by
      unfold tsOf
      rw [show ((7323/2 : Rat) * 1000000) = ((3661500000 : Int) : Rat) by norm_num,
        rhe_intCast]
      norm_num
    have hfl1 : ⌊(7323/2 : Rat) / 3600⌋ = 1 := by
      rw [show ((7323/2 : Rat) / 3600) = 7323/7200 by norm_num]
      norm_num
    have hh : hoursComponent (7323/2) = 1 := by
      unfold hoursComponent
      rw [hts]
      exact hfl1
    have hq1 : qmod (7323/2 : Rat) 3600 = 123/2 := by
      unfold qmod
      rw [hfl1]
      norm_num
    have hm : minutesComponent (7323/2) = 1 := by
      unfold minutesComponent
      rw [hts, hq1]
      rw [show ((123/2 : Rat) / 60) = 123/120 by norm_num]
      norm_num
    have hq2 : qmod (7323/2 : Rat) 60 = 3/2 := by
      unfold qmod
      rw [show ((7323/2 : Rat) / 60) = 7323/120 by norm_num]
      rw [show ⌊(7323/120 : Rat)⌋ = 61 by norm_num]
      norm_num
    have hmi : milliComponent (7323/2) = 1500 := by
      unfold milliComponent secsComponent
      rw [hts, hq2]
      rw [show ((3/2 : Rat) * 1000) = ((1500 : Int) : Rat) by norm_num, rhe_intCast]
    unfold format_timestamp
    rw [hh, hm, hmi]
    decide
  · have hts : tsOf (90000 : Rat) = 90000 := by
      unfold tsOf
      rw [show ((90000 : Rat) * 1000000) = ((90000000000 : Int) : Rat) by norm_num,
        rhe_intCast]
      norm_num
    have hfl1 : ⌊(90000 : Rat) / 3600⌋ = 25 := by
      rw [show ((90000 : Rat) / 3600) = 25 by norm_num]
      norm_num
    have hh : hoursComponent 90000 = 25 := by
      unfold hoursComponent
      rw [hts]
      exact hfl1
    have hq1 : qmod (90000 : Rat) 3600 = 0 := by
      unfold qmod
      rw [hfl1]
      norm_num
    have hm : minutesComponent 90000 = 0 := by
      unfold minutesComponent
      rw [hts, hq1]
      norm_num
    have hq2 : qmod (90000 : Rat) 60 = 0 := by
      unfold qmod
      rw [show ((90000 : Rat) / 60) = 1500 by norm_num]
      rw [show ⌊(1500 : Rat)⌋ = 1500 by norm_num]
      norm_num
    have hmi : milliComponent 90000 = 0 := by
      unfold milliComponent secsComponent
      rw [hts, hq2]
      rw [show ((0 : Rat) * 1000) = ((0 : Int) : Rat) by norm_num, rhe_intCast]
    unfold format_timestamp
    rw [hh, hm, hmi]
    decide

/-- Counterexample for C7 as stated: at 59.9996 seconds the rendered
seconds component rounds up to exactly `60.000`, so the printed
seconds value does not stay below 60 (the whole output is
`00:00:60.000`). -/
theorem C7_counterexample :
    format_timestamp (149999/2500) = "00:00:60.000" ∧
    milliComponent (149999/2500) = 60000 ∧
    ¬ milliComponent (149999/2500) < 60000 := by
  have hts : tsOf (149999/2500 : Rat) = 149999/2500 := by
    unfold tsOf
    rw [show ((149999/2500 : Rat) * 1000000) = ((59999600 : Int) : Rat) by norm_num,
      rhe_intCast]
    norm_num
  have hfl1 : ⌊(149999/2500 : Rat) / 3600⌋ = 0 := by
    rw [show ((149999/2500 : Rat) / 3600) = 149999/9000000 by norm_num]
    norm_num
  have hh : hoursComponent (149999/2500) = 0 := by
    unfold hoursComponent
    rw [hts]
    exact hfl1
  have hq1 : qmod (149999/2500 : Rat) 3600 = 149999/2500 := by
    unfold qmod
    rw [hfl1]
    norm_num
  have hm : minutesComponent (149999/2500) = 0 := by
    unfold minutesComponent
    rw [hts, hq1]
    rw [show ((149999/2500 : Rat) / 60) = 149999/150000 by norm_num]
    norm_num
  have hq2 : qmod (149999/2500 : Rat) 60 = 149999/2500 := by
    unfold qmod
    rw [show ((149999/2500 : Rat) / 60) = 149999/150000 by norm_num]
    rw [show ⌊(149999/150000 : Rat)⌋ = 0 by norm_num]
    norm_num
  have hmi : milliComponent (149999/2500) = 60000 := by
    unfold milliComponent secsComponent
    rw [hts, hq2]
    unfold rhe
    rw [show ((149999/2500 : Rat) * 1000) = 299998/5 by norm_num]
    rw [show ⌊(299998/5 : Rat)⌋ = 59999 by norm_num]
    norm_num
  refine ⟨?_, hmi, by omega⟩
  unfold format_timestamp
  rw [hh, hm, hmi]
  decide

/-- Witness for C7: the bounds instantiated at one second. -/
theorem C7_witness : 0 ≤ secsComponent 1 ∧ secsComponent 1 < 60 :=
  ⟨(C7_format_timestamp 1 zero_le_one).2.2.2.1,
   (C7_format_timestamp 1 zero_le_one).2.2.2.2.1⟩

/-- C8 (amended): for a non-empty video path, `save_annotation`
appends the four tab-separated fields terminated by a newline to
`{basename}_annotations.txt` in the override directory if set, else
the video's directory; the display path is home-relative exactly when
the absolute path has the home-directory string as a prefix — a
string test, which a path lying under home always passes. -/
theorem C8_save_contract (annotDir : Option String) (home : String)
    (absOf : String → String) (vp s e t : String) (hvp : vp ≠ "") :
    save_annotation annotDir home absOf vp s e t =
      ((true, some (annotTargetFile annotDir vp), none),
        some (annotTargetFile annotDir vp,
          displayPath home (absOf vp) ++ "\t" ++ s ++ "\t" ++ e ++ "\t" ++ t
            ++ "\n")) ∧
    (liesUnderHomeSpec (absOf vp) home →
      displayPath home (absOf vp) = relpath (absOf vp) home) := by
  constructor
  · unfold save_annotation
    rw [if_neg hvp]
  · intro hlies
    unfold displayPath
    rw [if_pos]
    rcases hlies with h | h
    · rw [h, List.isPrefixOf_iff_prefix]
    · rw [List.isPrefixOf_iff_prefix] at h ⊢
      refine List.IsPrefix.trans ?_ h
      rw [String.data_append]
      exact List.prefix_append _ _

/-- Counterexample for C8 as stated: `/home/user2/v.mp4` does not lie
under the home directory `/home/user`, yet the string-prefix test
accepts it and the stored display path is the home-relative
`../user2/v.mp4` instead of the absolute path. -/
theorem C8_counterexample :
    ¬ liesUnderHomeSpec "/home/user2/v.mp4" "/home/user" ∧
    displayPath "/home/user" "/home/user2/v.mp4" = "../user2/v.mp4" ∧
    "../user2/v.mp4" ≠ "/home/user2/v.mp4" ∧
    ( save_annotation none "/home/user" (fun p => p) "/home/user2/v.mp4"
        "00:00:00.000" "00:00:02.000" "note").2 =
      some ("/home/user2/v_annotations.txt",
        "../user2/v.mp4\t00:00:00.000\t00:00:02.000\tnote\n") := by
  decide

/-- Witness for C8 at a concrete video inside the home directory. -/
theorem C8_witness :
    save_annotation none "/home/u" (fun p => p) "/home/u/vids/a.mp4" "s" "e"
      "txt" =
      ((true, some (annotTargetFile none "/home/u/vids/a.mp4"), none),
        some (annotTargetFile none "/home/u/vids/a.mp4",
          displayPath "/home/u" "/home/u/vids/a.mp4" ++ "\t" ++ "s" ++ "\t"
            ++ "e" ++ "\t" ++ "txt" ++ "\n")) :=
  (C8_save_contract none "/home/u" (fun p => p) "/home/u/vids/a.mp4" "s" "e"
    "txt" (by decide)).1

end MainTheorems
